import Mathlib

set_option maxHeartbeats 1000000

/-! Verification of the ciao node agent's instance command execution engine:
the restart procedure and its error reporting (src/ciao-launcher/restart.go),
the restart failure taxonomy, and the command/error payload codec exercised by
src/payloads/restartfailure_test.go and the Stop/Delete payload tests. -/

/-- Modelled from the spec: the closed seven-member restart failure taxonomy
(`payloads.RestartFailureReason`). The Go declaration lives in the payloads
package outside the sources under verification; the member set is pinned by
src/payloads/restartfailure_test.go. -/
inductive RestartFailureReason where
  | RestartNoInstance
  | RestartInvalidPayload
  | RestartInvalidData
  | RestartAlreadyRunning
  | RestartInstanceCorrupt
  | RestartLaunchFailure
  | RestartNetworkFailure
deriving DecidableEq

/-- Modelled from the spec: the fixed description string of each taxonomy
member (`RestartFailureReason.String()` in the payloads package, outside the
sources under verification); each string is pinned by
TestRestartFailureString in src/payloads/restartfailure_test.go. -/
def RestartFailureReason.String : RestartFailureReason → String
  | .RestartNoInstance => "Instance does not exist"
  | .RestartInvalidPayload => "YAML payload is corrupt"
  | .RestartInvalidData => "Command section of YAML payload is corrupt or missing required information"
  | .RestartAlreadyRunning => "Instance is already running"
  | .RestartInstanceCorrupt => "Instance is corrupt"
  | .RestartLaunchFailure => "Failed to launch instance"
  | .RestartNetworkFailure => "Failed to locate VNIC for instance"

/-- Modelled from the spec: the wire token of each taxonomy member — "fixed
lower/underscore-case string tokens (e.g., `already_running`), not integers".
The Go constants live in the payloads package outside the sources under
verification; `already_running` is pinned by TestRestartFailureUnmarshal. -/
def restartReasonToken : RestartFailureReason → String
  | .RestartNoInstance => "no_instance"
  | .RestartInvalidPayload => "invalid_payload"
  | .RestartInvalidData => "invalid_data"
  | .RestartAlreadyRunning => "already_running"
  | .RestartInstanceCorrupt => "instance_corrupt"
  | .RestartLaunchFailure => "launch_failure"
  | .RestartNetworkFailure => "network_failure"

/-- Modelled from the spec: inverse token lookup used by strict decoding of a
`reason` field; accepts exactly the fixed tokens of the taxonomy. -/
def parseRestartReason (s : String) : Option RestartFailureReason :=
  if s = "no_instance" then some .RestartNoInstance
  else if s = "invalid_payload" then some .RestartInvalidPayload
  else if s = "invalid_data" then some .RestartInvalidData
  else if s = "already_running" then some .RestartAlreadyRunning
  else if s = "instance_corrupt" then some .RestartInstanceCorrupt
  else if s = "launch_failure" then some .RestartLaunchFailure
  else if s = "network_failure" then some .RestartNetworkFailure
  else none

/-- Modelled from the spec: the VM configuration handle (`vmConfig` in
ciao-launcher, outside the sources under verification) "describing resources
and network requirements"; the restart code only passes it through, so it is
represented by the instance UUID it concerns. -/
structure vmConfig where
  instanceUUID : String
deriving DecidableEq

/-- Modelled from the spec: the opaque VNIC configuration produced by the
network provisioner's build step (`libsnnet.VnicConfig`, an external
collaborator); the restart code only passes it through. -/
structure VnicConfig where
  vnicUUID : String
deriving DecidableEq

/-- The restart error value built by processRestart: the underlying error
(Go `error`, modelled by its message) and the taxonomy code
(src/ciao-launcher/restart.go, type restartError). -/
structure restartError where
  err : String
  code : RestartFailureReason
deriving DecidableEq

/-- Modelled from the spec: the SSNTP error kind constant used when reporting
(`ssntp.RestartFailure`, external collaborator). -/
inductive SsntpErrorKind where
  | RestartFailure
deriving DecidableEq

/-- Modelled from the spec: the control channel capability (`serverConn` in
ciao-launcher, outside the sources under verification): an instantaneous
connectivity answer and a fallible send returning a count and a Go error
(`none` = nil). -/
structure serverConn where
  isConnected : Bool
  sendError : SsntpErrorKind → String → Nat × Option String

/-- Modelled from the spec: the VM controller capability (`virtualizer` in
ciao-launcher, outside the sources under verification); `startVM` returns a Go
error (`none` = nil). -/
structure virtualizer where
  startVM : String → String → Option String

/-- Modelled from the spec: the package-level collaborators of restart.go that
live outside the sources under verification: the process-wide networking flag
(`networking.Enabled()`), the network provisioner (`createVnicCfg`,
`createVnic`), the node address (`getNodeIPAddress`) and the payload generator
(`generateRestartError`). Each fallible call returns a Go-style result. -/
structure LauncherEnv where
  networkingEnabled : Bool
  createVnicCfg : vmConfig → Except String VnicConfig
  createVnic : serverConn → VnicConfig → Except String (String × String)
  getNodeIPAddress : String
  generateRestartError : String → restartError → Except String String

/-- A provisioning call observed during processRestart, with its arguments. -/
inductive Event where
  | evCreateVnicCfg (cfg : vmConfig)
  | evCreateVnic (vcfg : VnicConfig)
  | evStartVM (vnicName : String) (nodeIP : String)
deriving DecidableEq

/-- The step a provisioning event belongs to. -/
inductive EventKind where
  | kCreateVnicCfg
  | kCreateVnic
  | kStartVM
deriving DecidableEq

/-- The step of an observed event. -/
def Event.kind : Event → EventKind
  | .evCreateVnicCfg _ => .kCreateVnicCfg
  | .evCreateVnic _ => .kCreateVnic
  | .evStartVM _ _ => .kStartVM

/-- The tail of processRestart: the unconditional vm.startVM call on the
(possibly empty) VNIC name and the node address
(src/ciao-launcher/restart.go:65-68). -/
def startVMPhase (env : LauncherEnv) (vm : virtualizer) (vnicName : String)
    (tr : List Event) : Option restartError × List Event :=
  let tr := tr ++ [Event.evStartVM vnicName env.getNodeIPAddress]
  match vm.startVM vnicName env.getNodeIPAddress with
  | some e => (some ⟨e, .RestartLaunchFailure⟩, tr)
  | none => (none, tr)

/-- The procedure processRestart from src/ciao-launcher/restart.go:48-71, instrumented with
the list of provisioning calls it makes. `vnicName` starts empty; when
networking is enabled the VNIC configuration is built (failure →
RestartInstanceCorrupt) and the VNIC created (failure →
RestartNetworkFailure); then the VM is started (failure →
RestartLaunchFailure); nil is returned on success. -/
def processRestart (env : LauncherEnv) (instanceDir : String) (vm : virtualizer)
    (conn : serverConn) (cfg : vmConfig) : Option restartError × List Event :=
  if env.networkingEnabled then
    match env.createVnicCfg cfg with
    | .error e => (some ⟨e, .RestartInstanceCorrupt⟩, [Event.evCreateVnicCfg cfg])
    | .ok vnicCfg =>
      match env.createVnic conn vnicCfg with
      | .error e =>
          (some ⟨e, .RestartNetworkFailure⟩,
           [Event.evCreateVnicCfg cfg, Event.evCreateVnic vnicCfg])
      | .ok (vnicName, _) =>
          startVMPhase env vm vnicName
            [Event.evCreateVnicCfg cfg, Event.evCreateVnic vnicCfg]
  else
    startVMPhase env vm "" []

/-- The reasons processRestart itself can produce: success, or one of
InstanceCorrupt, NetworkFailure, LaunchFailure. -/
def engineReasonOK : Option restartError → Bool
  | none => true
  | some re =>
    match re.code with
    | .RestartInstanceCorrupt => true
    | .RestartNetworkFailure => true
    | .RestartLaunchFailure => true
    | _ => false

/-- An action observed during restartError.send. -/
inductive SendEvent where
  | evGenerate (inst : String)
  | evSendError (kind : SsntpErrorKind) (payload : String)
  | evLogGenFailure (msg : String)
  | evLogSendFailure (msg : String)
deriving DecidableEq

/-- The method restartError.send from src/ciao-launcher/restart.go:31-46, instrumented
with the actions it takes; the first component is the receiver's final state
(the method assigns to no field). Not connected → return immediately; payload
generation failure → log and return; send failure → log; nothing is
propagated. -/
def restartError.send (env : LauncherEnv) (re : restartError) (conn : serverConn)
    (inst : String) : restartError × List SendEvent :=
  if !conn.isConnected then (re, [])
  else
    match env.generateRestartError inst re with
    | .error e => (re, [SendEvent.evGenerate inst, SendEvent.evLogGenFailure e])
    | .ok payload =>
      match (conn.sendError SsntpErrorKind.RestartFailure payload).snd with
      | some e =>
          (re, [SendEvent.evGenerate inst,
                SendEvent.evSendError SsntpErrorKind.RestartFailure payload,
                SendEvent.evLogSendFailure e])
      | none =>
          (re, [SendEvent.evGenerate inst,
                SendEvent.evSendError SsntpErrorKind.RestartFailure payload])

deriving instance DecidableEq for Except

/-- Decode failures of the strict payload codec (modelled from the spec's
DecodeError: missing required fields are named, unknown top-level keys are
rejected). -/
inductive DecodeError where
  | malformed
  | unknownKey (key : String)
  | missingField (field : String)
  | invalidReason (token : String)
deriving DecidableEq

/-- Split a character list at every occurrence of `c` (the separators are
dropped); the result is never empty, and a trailing separator yields a final
empty piece. -/
def splitOnChar (c : Char) : List Char → List (List Char)
  | [] => [[]]
  | x :: xs =>
    if x = c then [] :: splitOnChar c xs
    else
      match splitOnChar c xs with
      | [] => [[x]]
      | l :: ls => (x :: l) :: ls

/-- Split a character list at the first occurrence of `c`; none when `c` is
absent. -/
def breakAtChar (c : Char) : List Char → Option (List Char × List Char)
  | [] => none
  | x :: xs =>
    if x = c then some ([], xs)
    else (breakAtChar c xs).map (fun p => (x :: p.1, p.2))

/-- Parse a `key: value` line into its key and value. -/
def parseKVLine (l : List Char) : Option (List Char × List Char) :=
  match breakAtChar ':' l with
  | some (k, ' ' :: v) => some (k, v)
  | _ => none

/-- First value bound to `k` in an association list of parsed lines. -/
def lookupKey (k : List Char) : List (List Char × List Char) → Option (List Char)
  | [] => none
  | kv :: rest => if kv.1 = k then some kv.2 else lookupKey k rest

/-- Modelled from the spec: parse the nested body of a command envelope.
Every line up to the final empty piece (the document's trailing newline) must
be a two-space-indented `key: value` line; a further non-indented line is an
extra top-level key and is rejected. -/
def parseBody : List (List Char) → Except DecodeError (List (List Char × List Char))
  | [] => .error .malformed
  | [[]] => .ok []
  | l :: rest =>
    match l with
    | ' ' :: ' ' :: body =>
      match parseKVLine body with
      | some kv => (parseBody rest).map (fun kvs => kv :: kvs)
      | none => .error .malformed
    | _ => .error (.unknownKey (String.mk l))

/-- Modelled from the spec: parse the flat body of an error payload; every
line up to the final empty piece must be a top-level `key: value` line. -/
def parseFlatBody : List (List Char) → Except DecodeError (List (List Char × List Char))
  | [] => .error .malformed
  | [[]] => .ok []
  | l :: rest =>
    match parseKVLine l with
    | some kv => (parseFlatBody rest).map (fun kvs => kv :: kvs)
    | none => .error .malformed

/-- The `key:` top line of a command envelope. -/
def topLine (k : String) : List Char := k.data ++ [':']

/-- A two-space-indented `key: value` nested line. -/
def nestedLine (k : String) (v : List Char) : List Char :=
  ' ' :: ' ' :: (k.data ++ ':' :: ' ' :: v)

/-- A top-level `key: value` line of a flat error payload. -/
def flatLine (k : String) (v : List Char) : List Char :=
  k.data ++ ':' :: ' ' :: v

/-- Modelled from the spec: the nested command section shared by Stop and
Delete (`payloads.StopCmd`/`DeleteCmd`, outside the sources under
verification); fields pinned by the Stop/Delete payload tests. -/
structure StopCmd where
  InstanceUUID : String
  WorkloadAgentUUID : String
deriving DecidableEq

/-- Modelled from the spec: the Stop command envelope (`payloads.Stop`), whose
single top-level key `stop` carries the command section. -/
structure Stop where
  Stop : StopCmd
deriving DecidableEq

/-- Modelled from the spec: the Delete command envelope (`payloads.Delete`),
whose single top-level key `delete` carries the command section. -/
structure Delete where
  Delete : StopCmd
deriving DecidableEq

/-- Modelled from the spec: the restart error payload
(`payloads.ErrorRestartFailure`): an instance UUID and a taxonomy reason;
fields pinned by TestRestartFailureUnmarshal. -/
structure ErrorRestartFailure where
  InstanceUUID : String
  Reason : RestartFailureReason
deriving DecidableEq

/-- Modelled from the spec: deterministic encoding of a command envelope with
fixed field order — top-level key line, then the two nested fields, one per
line, with a trailing newline (byte format pinned by TestStopMarshal). -/
def encodeCmdChars (key : String) (c : StopCmd) : List Char :=
  topLine key ++ '\n' ::
    (nestedLine "instance_uuid" c.InstanceUUID.data ++ '\n' ::
      (nestedLine "workload_agent_uuid" c.WorkloadAgentUUID.data ++ '\n' :: []))

/-- Encoding of a Stop envelope to its wire bytes. -/
def encodeStop (x : Stop) : String := String.mk (encodeCmdChars "stop" x.Stop)

/-- Encoding of a Delete envelope to its wire bytes. -/
def encodeDelete (x : Delete) : String := String.mk (encodeCmdChars "delete" x.Delete)

/-- Modelled from the spec: deterministic encoding of a restart error payload
— `instance_uuid` then `reason` (as its fixed token), one per line, with a
trailing newline. -/
def ErrorRestartFailure.encodeChars (e : ErrorRestartFailure) : List Char :=
  flatLine "instance_uuid" e.InstanceUUID.data ++ '\n' ::
    (flatLine "reason" (restartReasonToken e.Reason).data ++ '\n' :: [])

/-- Encoding of a restart error payload to its wire bytes. -/
def ErrorRestartFailure.encode (e : ErrorRestartFailure) : String :=
  String.mk e.encodeChars

/-- Modelled from the spec: strict decode of a command envelope of the given
top-level key into its command section. The single top-level key must match
the variant (otherwise the unknown key is reported), the nested fields
`instance_uuid` and `workload_agent_uuid` are required (a missing one is named
in the error), and any extra top-level line is rejected by parseBody. -/
def decodeCmdOfLines (key : String) : List (List Char) → Except DecodeError StopCmd
  | [] => .error .malformed
  | first :: rest =>
    match breakAtChar ':' first with
    | some (k, []) =>
      if k = key.data then
        match parseBody rest with
        | .error e => .error e
        | .ok kvs =>
          match lookupKey ("instance_uuid".data) kvs with
          | none => .error (.missingField "instance_uuid")
          | some iu =>
            match lookupKey ("workload_agent_uuid".data) kvs with
            | none => .error (.missingField "workload_agent_uuid")
            | some wa => .ok ⟨String.mk iu, String.mk wa⟩
      else .error (.unknownKey (String.mk k))
    | _ => .error .malformed

/-- Strict decode of Stop envelope bytes. -/
def decodeStop (s : String) : Except DecodeError Stop :=
  match decodeCmdOfLines "stop" (splitOnChar '\n' s.data) with
  | .error e => .error e
  | .ok c => .ok ⟨c⟩

/-- Strict decode of Delete envelope bytes. -/
def decodeDelete (s : String) : Except DecodeError Delete :=
  match decodeCmdOfLines "delete" (splitOnChar '\n' s.data) with
  | .error e => .error e
  | .ok c => .ok ⟨c⟩

/-- First key of the association list that is not in the allowed set. -/
def firstUnknownKey (allowed : List (List Char)) :
    List (List Char × List Char) → Option (List Char)
  | [] => none
  | kv :: rest =>
    if kv.1 ∈ allowed then firstUnknownKey allowed rest else some kv.1

/-- Modelled from the spec: strict decode of the parsed lines of a restart
error payload: unknown top-level keys are rejected, `instance_uuid` and
`reason` are required, and the reason must be a fixed taxonomy token. -/
def decodeERFOfKVs (kvs : List (List Char × List Char)) :
    Except DecodeError ErrorRestartFailure :=
  match firstUnknownKey [("instance_uuid".data), ("reason".data)] kvs with
  | some k => .error (.unknownKey (String.mk k))
  | none =>
    match lookupKey ("instance_uuid".data) kvs with
    | none => .error (.missingField "instance_uuid")
    | some iu =>
      match lookupKey ("reason".data) kvs with
      | none => .error (.missingField "reason")
      | some rv =>
        match parseRestartReason (String.mk rv) with
        | none => .error (.invalidReason (String.mk rv))
        | some r => .ok ⟨String.mk iu, r⟩

/-- Strict decode of restart error payload bytes. -/
def decodeErrorRestartFailure (s : String) : Except DecodeError ErrorRestartFailure :=
  match parseFlatBody (splitOnChar '\n' s.data) with
  | .error e => .error e
  | .ok kvs => decodeERFOfKVs kvs

/-- A plain scalar value on the wire: nonempty, and free of newlines and
colons (UUIDs and reason tokens are plain scalars). -/
def plainScalar (s : String) : Bool :=
  !s.data.isEmpty && s.data.all (fun c => !(c = '\n') && !(c = ':'))

/-- The Stop fixture of TestStopUnmarshal/TestStopMarshal. -/
def stopYamlFixture : String :=
  "stop:\n  instance_uuid: 3390740c-dce9-48d6-b83a-a717417072ce\n  workload_agent_uuid: 59460b8a-5f53-4e3e-b5ce-b71fed8c7e64\n"

/-- The Stop value of the fixture. -/
def stopFixture : Stop :=
  ⟨⟨"3390740c-dce9-48d6-b83a-a717417072ce", "59460b8a-5f53-4e3e-b5ce-b71fed8c7e64"⟩⟩

/-- The restart failure fixture of TestRestartFailureUnmarshal. -/
def restartFailureYamlFixture : String :=
  "instance_uuid: 2400bce6-ccc8-4a45-b2aa-b5cc3790077b\nreason: already_running\n"

/-- A sample collaborator environment in which every step succeeds. -/
def sampleEnv : LauncherEnv where
  networkingEnabled := true
  createVnicCfg := fun _ => .ok ⟨"vcfg"⟩
  createVnic := fun _ _ => .ok ("eth0", "meta")
  getNodeIPAddress := "10.0.0.1"
  generateRestartError := fun i re => .ok (ErrorRestartFailure.encode ⟨i, re.code⟩)

/-- The environment sampleEnv with networking disabled. -/
def envNoNet : LauncherEnv := { sampleEnv with networkingEnabled := false }

/-- The environment sampleEnv with a failing VNIC-configuration build. -/
def envCfgFail : LauncherEnv :=
  { sampleEnv with createVnicCfg := fun _ => .error "cfgfail" }

/-- The environment sampleEnv with a failing VNIC creation. -/
def envVnicFail : LauncherEnv :=
  { sampleEnv with createVnic := fun _ _ => .error "vnicfail" }

/-- The environment sampleEnv with a failing payload generator. -/
def envGenFail : LauncherEnv :=
  { sampleEnv with generateRestartError := fun _ _ => .error "genfail" }

/-- A VM controller whose start always succeeds. -/
def vmOK : virtualizer := ⟨fun _ _ => none⟩

/-- A VM controller whose start always fails. -/
def vmFail : virtualizer := ⟨fun _ _ => some "startfail"⟩

/-- A disconnected control channel. -/
def connDown : serverConn := ⟨false, fun _ _ => (0, none)⟩

/-- A connected control channel whose sends succeed. -/
def connUp : serverConn := ⟨true, fun _ _ => (0, none)⟩

/-- A connected control channel whose sends fail. -/
def connUpSendFail : serverConn := ⟨true, fun _ _ => (0, some "sendfail")⟩

/-- A sample VM configuration. -/
def cfg0 : vmConfig := ⟨"2400bce6-ccc8-4a45-b2aa-b5cc3790077b"⟩

/-- A sample restart error value. -/
def re0 : restartError := ⟨"startfail", .RestartLaunchFailure⟩

/-- Claim C9: for every input, processRestart returns either success (nil) or
a restartError whose code is one of exactly InstanceCorrupt, NetworkFailure,
LaunchFailure; the execution engine itself never produces NoInstance,
InvalidPayload, InvalidData, or AlreadyRunning. -/
theorem processRestart_reason_subset :
    ∀ env dir vm conn cfg,
      engineReasonOK (processRestart env dir vm conn cfg).1 = true := by
  intro env dir vm conn cfg
  by_cases hn : env.networkingEnabled
  · cases hcfg : env.createVnicCfg cfg with
    | error e => simp [processRestart, hn, hcfg, engineReasonOK]
    | ok vcfg =>
      cases hvc : env.createVnic conn vcfg with
      | error e => simp [processRestart, hn, hcfg, hvc, engineReasonOK]
      | ok p =>
        obtain ⟨name, meta⟩ := p
        cases hsv : vm.startVM name env.getNodeIPAddress <;>
          simp [processRestart, startVMPhase, hn, hcfg, hvc, hsv, engineReasonOK]
  · cases hsv : vm.startVM "" env.getNodeIPAddress <;>
      simp [processRestart, startVMPhase, hn, hsv, engineReasonOK]

/-- Claim C1: with networking disabled a restart never invokes the VNIC
creator and passes the empty VNIC name to VM start; with networking enabled
and a failing VNIC-configuration build, neither the VNIC creator nor VM start
is invoked and the result is InstanceCorrupt; the steps run in the fixed
order build-config, create-VNIC, start-VM, short-circuiting on the first
failure. -/
theorem processRestart_ordering :
    (∀ env dir vm conn cfg, env.networkingEnabled = false →
        (processRestart env dir vm conn cfg).2 =
          [Event.evStartVM "" env.getNodeIPAddress]) ∧
    (∀ env dir vm conn cfg e, env.networkingEnabled = true →
        env.createVnicCfg cfg = .error e →
        processRestart env dir vm conn cfg =
          (some ⟨e, .RestartInstanceCorrupt⟩, [Event.evCreateVnicCfg cfg])) ∧
    (∀ env dir vm conn cfg,
        List.IsPrefix ((processRestart env dir vm conn cfg).2.map Event.kind)
          (if env.networkingEnabled then
            [EventKind.kCreateVnicCfg, EventKind.kCreateVnic, EventKind.kStartVM]
          else [EventKind.kStartVM])) := by
  refine ⟨?_, ?_, ?_⟩
  · intro env dir vm conn cfg hn
    cases hsv : vm.startVM "" env.getNodeIPAddress <;>
      simp [processRestart, startVMPhase, hn, hsv]
  · intro env dir vm conn cfg e hn hcfg
    simp [processRestart, hn, hcfg]
  · intro env dir vm conn cfg
    by_cases hn : env.networkingEnabled
    · cases hcfg : env.createVnicCfg cfg with
      | error e =>
        simp [processRestart, hn, hcfg, Event.kind]
        all_goals decide
      | ok vcfg =>
        cases hvc : env.createVnic conn vcfg with
        | error e =>
          simp [processRestart, hn, hcfg, hvc, Event.kind]
          all_goals decide
        | ok p =>
          obtain ⟨name, meta⟩ := p
          cases hsv : vm.startVM name env.getNodeIPAddress <;>
            · simp [processRestart, startVMPhase, hn, hcfg, hvc, hsv, Event.kind]
              all_goals decide
    · cases hsv : vm.startVM "" env.getNodeIPAddress <;>
        · simp [processRestart, startVMPhase, hn, hsv, Event.kind]
          all_goals decide

/-- Claim C1 witness: concrete runs with networking disabled and with a
failing VNIC-configuration build. -/
theorem processRestart_ordering_witness :
    (processRestart envNoNet "dir" vmOK connUp cfg0).2 =
      [Event.evStartVM "" envNoNet.getNodeIPAddress] ∧
    processRestart envCfgFail "dir" vmOK connUp cfg0 =
      (some ⟨"cfgfail", .RestartInstanceCorrupt⟩, [Event.evCreateVnicCfg cfg0]) :=
  ⟨processRestart_ordering.1 envNoNet "dir" vmOK connUp cfg0 rfl,
   processRestart_ordering.2.1 envCfgFail "dir" vmOK connUp cfg0 "cfgfail" rfl rfl⟩

/-- Claim C2: a VNIC-creation failure yields exactly NetworkFailure, a
VM-start failure yields exactly LaunchFailure, each provisioning call is made
at most once (the observed step kinds are duplicate-free), and when no step
fails the procedure returns success (nil), carrying no error payload; a
failed attempt carries exactly one reason (the single code of the returned
restartError). -/
theorem processRestart_failure_codes :
    (∀ env dir vm conn cfg vcfg e, env.networkingEnabled = true →
        env.createVnicCfg cfg = .ok vcfg →
        env.createVnic conn vcfg = .error e →
        processRestart env dir vm conn cfg =
          (some ⟨e, .RestartNetworkFailure⟩,
           [Event.evCreateVnicCfg cfg, Event.evCreateVnic vcfg])) ∧
    (∀ env dir vm conn cfg n e,
        Event.evStartVM n env.getNodeIPAddress ∈ (processRestart env dir vm conn cfg).2 →
        vm.startVM n env.getNodeIPAddress = some e →
        (processRestart env dir vm conn cfg).1 = some ⟨e, .RestartLaunchFailure⟩) ∧
    (∀ env dir vm conn cfg,
        ((processRestart env dir vm conn cfg).2.map Event.kind).Nodup) ∧
    (∀ env dir vm conn cfg vcfg nm meta, env.networkingEnabled = true →
        env.createVnicCfg cfg = .ok vcfg →
        env.createVnic conn vcfg = .ok (nm, meta) →
        vm.startVM nm env.getNodeIPAddress = none →
        (processRestart env dir vm conn cfg).1 = none) ∧
    (∀ env dir vm conn cfg, env.networkingEnabled = false →
        vm.startVM "" env.getNodeIPAddress = none →
        (processRestart env dir vm conn cfg).1 = none) := by
  refine ⟨?_, ?_, ?_, ?_, ?_⟩
  · intro env dir vm conn cfg vcfg e hn hcfg hvc
    simp [processRestart, hn, hcfg, hvc]
  · intro env dir vm conn cfg n e hmem hvm
    by_cases hn : env.networkingEnabled
    · cases hcfg : env.createVnicCfg cfg with
      | error e' => simp [processRestart, hn, hcfg] at hmem
      | ok vcfg =>
        cases hvc : env.createVnic conn vcfg with
        | error e' => simp [processRestart, hn, hcfg, hvc] at hmem
        | ok p =>
          obtain ⟨name, meta⟩ := p
          cases hsv : vm.startVM name env.getNodeIPAddress with
          | some e' =>
            simp [processRestart, startVMPhase, hn, hcfg, hvc, hsv] at hmem ⊢
            rw [hmem] at hvm
            rw [hvm] at hsv
            exact (Option.some.inj hsv).symm
          | none =>
            simp [processRestart, startVMPhase, hn, hcfg, hvc, hsv] at hmem
            rw [hmem] at hvm
            rw [hvm] at hsv
            exact Option.noConfusion hsv
    · cases hsv : vm.startVM "" env.getNodeIPAddress with
      | some e' =>
        simp [processRestart, startVMPhase, hn, hsv] at hmem ⊢
        rw [hmem] at hvm
        rw [hvm] at hsv
        exact (Option.some.inj hsv).symm
      | none =>
        simp [processRestart, startVMPhase, hn, hsv] at hmem
        rw [hmem] at hvm
        rw [hvm] at hsv
        exact Option.noConfusion hsv
  · intro env dir vm conn cfg
    by_cases hn : env.networkingEnabled
    · cases hcfg : env.createVnicCfg cfg with
      | error e => simp [processRestart, hn, hcfg, Event.kind]
      | ok vcfg =>
        cases hvc : env.createVnic conn vcfg with
        | error e => simp [processRestart, hn, hcfg, hvc, Event.kind]
        | ok p =>
          obtain ⟨name, meta⟩ := p
          cases hsv : vm.startVM name env.getNodeIPAddress <;>
            · simp [processRestart, startVMPhase, hn, hcfg, hvc, hsv, Event.kind]
              all_goals decide
    · cases hsv : vm.startVM "" env.getNodeIPAddress <;>
        simp [processRestart, startVMPhase, hn, hsv, Event.kind]
  · intro env dir vm conn cfg vcfg nm meta hn hcfg hvc hsv
    simp [processRestart, startVMPhase, hn, hcfg, hvc, hsv]
  · intro env dir vm conn cfg hn hsv
    simp [processRestart, startVMPhase, hn, hsv]

/-- Claim C2 witness: concrete runs exercising the VNIC-creation failure, the
VM-start failure, and the two success paths. -/
theorem processRestart_failure_codes_witness :
    processRestart envVnicFail "dir" vmOK connUp cfg0 =
      (some ⟨"vnicfail", .RestartNetworkFailure⟩,
       [Event.evCreateVnicCfg cfg0, Event.evCreateVnic ⟨"vcfg"⟩]) ∧
    (processRestart sampleEnv "dir" vmFail connUp cfg0).1 =
      some ⟨"startfail", .RestartLaunchFailure⟩ ∧
    (processRestart sampleEnv "dir" vmOK connUp cfg0).1 = none ∧
    (processRestart envNoNet "dir" vmOK connUp cfg0).1 = none :=
  ⟨processRestart_failure_codes.1 envVnicFail "dir" vmOK connUp cfg0 ⟨"vcfg"⟩ "vnicfail" rfl rfl rfl,
   processRestart_failure_codes.2.1 sampleEnv "dir" vmFail connUp cfg0 "eth0" "startfail"
     (by decide) rfl,
   processRestart_failure_codes.2.2.2.1 sampleEnv "dir" vmOK connUp cfg0 ⟨"vcfg"⟩ "eth0" "meta"
     rfl rfl rfl rfl,
   processRestart_failure_codes.2.2.2.2 envNoNet "dir" vmOK connUp cfg0 rfl rfl⟩

/-- Claim C3: if the control channel reports not connected, send performs no
action at all (in particular SendError is never called) and returns normally
with the receiver unchanged. -/
theorem send_not_connected :
    ∀ env (re : restartError) conn inst, conn.isConnected = false →
      restartError.send env re conn inst = (re, []) := by
  intro env re conn inst h
  simp [restartError.send, h]

/-- Claim C3 witness: a concrete send over a disconnected channel. -/
theorem send_not_connected_witness :
    restartError.send sampleEnv re0 connDown "2400bce6-ccc8-4a45-b2aa-b5cc3790077b" =
      (re0, []) :=
  send_not_connected sampleEnv re0 connDown "2400bce6-ccc8-4a45-b2aa-b5cc3790077b" rfl

/-- Claim C4: if the channel is connected but the underlying SendError call
fails, the failure is logged, SendError is called exactly once (no retry), and
nothing is propagated: send returns normally and the receiver's err and code
fields are unchanged. -/
theorem send_failure_swallowed :
    ∀ env re conn inst payload e, conn.isConnected = true →
      env.generateRestartError inst re = .ok payload →
      (conn.sendError SsntpErrorKind.RestartFailure payload).snd = some e →
      restartError.send env re conn inst =
        (re, [SendEvent.evGenerate inst,
              SendEvent.evSendError SsntpErrorKind.RestartFailure payload,
              SendEvent.evLogSendFailure e]) := by
  intro env re conn inst payload e h1 h2 h3
  simp [restartError.send, h1, h2, h3]

/-- Claim C4 witness: a concrete send over a connected channel whose
underlying send fails. -/
theorem send_failure_swallowed_witness :
    restartError.send sampleEnv re0 connUpSendFail "inst-1" =
      (re0, [SendEvent.evGenerate "inst-1",
             SendEvent.evSendError SsntpErrorKind.RestartFailure
               (ErrorRestartFailure.encode ⟨"inst-1", re0.code⟩),
             SendEvent.evLogSendFailure "sendfail"]) :=
  send_failure_swallowed sampleEnv re0 connUpSendFail "inst-1"
    (ErrorRestartFailure.encode ⟨"inst-1", re0.code⟩) "sendfail" rfl rfl rfl

/-- Claim C10: with a connected channel, if generating the error payload
fails, send logs the failure, never calls the channel's SendError, and
returns normally with the receiver unchanged. -/
theorem send_generate_failure :
    ∀ env re conn inst e, conn.isConnected = true →
      env.generateRestartError inst re = .error e →
      restartError.send env re conn inst =
        (re, [SendEvent.evGenerate inst, SendEvent.evLogGenFailure e]) ∧
      ∀ k p, SendEvent.evSendError k p ∉ (restartError.send env re conn inst).2 := by
  intro env re conn inst e h1 h2
  constructor
  · simp [restartError.send, h1, h2]
  · intro k p
    simp [restartError.send, h1, h2]

/-- Claim C10 witness: a concrete send whose payload generation fails. -/
theorem send_generate_failure_witness :
    restartError.send envGenFail re0 connUp "inst-2" =
      (re0, [SendEvent.evGenerate "inst-2", SendEvent.evLogGenFailure "genfail"]) :=
  (send_generate_failure envGenFail re0 connUp "inst-2" "genfail" rfl rfl).1

/-- The constructor String.mk is left inverse to String.data. -/
theorem stringMkData (s : String) : String.mk s.data = s := rfl

/-- A plain scalar contains no newline. -/
theorem plainScalar_not_nl {s : String} (h : plainScalar s = true) : '\n' ∉ s.data := by
  intro hm
  simp [plainScalar, List.all_eq_true] at h
  exact (h.2 '\n' hm).1 rfl

/-- A plain scalar contains no colon. -/
theorem plainScalar_not_colon {s : String} (h : plainScalar s = true) : ':' ∉ s.data := by
  intro hm
  simp [plainScalar, List.all_eq_true] at h
  exact (h.2 ':' hm).2 rfl

/-- The function splitOnChar splits off a separator-free prefix at its separator. -/
theorem splitOnChar_append (c : Char) (a r : List Char) (h : c ∉ a) :
    splitOnChar c (a ++ c :: r) = a :: splitOnChar c r := by
  induction a with
  | nil => simp [splitOnChar]
  | cons x xs ih =>
    have hx : ¬(x = c) := by
      intro heq
      exact h (by rw [← heq]; exact List.mem_cons_self x xs)
    have hxs : c ∉ xs := fun hm => h (List.mem_cons_of_mem x hm)
    simp [splitOnChar, hx, ih hxs]

/-- The function breakAtChar finds the first separator after a separator-free prefix. -/
theorem breakAtChar_append (c : Char) (a r : List Char) (h : c ∉ a) :
    breakAtChar c (a ++ c :: r) = some (a, r) := by
  induction a with
  | nil => simp [breakAtChar]
  | cons x xs ih =>
    have hx : ¬(x = c) := by
      intro heq
      exact h (by rw [← heq]; exact List.mem_cons_self x xs)
    have hxs : c ∉ xs := fun hm => h (List.mem_cons_of_mem x hm)
    simp [breakAtChar, hx, ih hxs]

/-- A top line over a newline-free key contains no newline. -/
theorem not_nl_topLine (k : String) (hk : '\n' ∉ k.data) : '\n' ∉ topLine k := by
  simp [topLine, List.mem_append, hk]
  all_goals decide

/-- A nested line over newline-free key and value contains no newline. -/
theorem not_nl_nestedLine (k : String) (v : List Char) (hk : '\n' ∉ k.data)
    (hv : '\n' ∉ v) : '\n' ∉ nestedLine k v := by
  simp [nestedLine, List.mem_append, List.mem_cons, hk, hv]
  all_goals decide

/-- A flat line over newline-free key and value contains no newline. -/
theorem not_nl_flatLine (k : String) (v : List Char) (hk : '\n' ∉ k.data)
    (hv : '\n' ∉ v) : '\n' ∉ flatLine k v := by
  simp [flatLine, List.mem_append, List.mem_cons, hk, hv]
  all_goals decide

/-- The parser parseBody consumes one nested line. -/
theorem parseBody_cons (k : String) (v : List Char) (rest : List (List Char))
    (hk : ':' ∉ k.data) :
    parseBody (nestedLine k v :: rest) =
      (parseBody rest).map (fun kvs => (k.data, v) :: kvs) := by
  simp [parseBody, nestedLine, parseKVLine, breakAtChar_append _ _ _ hk]

/-- The parser parseFlatBody consumes one flat line. -/
theorem parseFlatBody_cons (k : String) (v : List Char) (rest : List (List Char))
    (hk : ':' ∉ k.data) :
    parseFlatBody (flatLine k v :: rest) =
      (parseFlatBody rest).map (fun kvs => (k.data, v) :: kvs) := by
  simp [parseFlatBody, flatLine, parseKVLine, breakAtChar_append _ _ _ hk]

/-- Every taxonomy wire token is a plain scalar. -/
theorem restartReasonToken_plain (r : RestartFailureReason) :
    plainScalar (restartReasonToken r) = true := by
  cases r <;> decide

/-- The parser parseRestartReason inverts restartReasonToken. -/
theorem parseRestartReason_token (r : RestartFailureReason) :
    parseRestartReason (restartReasonToken r) = some r := by
  cases r <;> decide

/-- Round-trip of the command-section codec for any envelope key. -/
theorem decodeCmd_roundtrip (key : String) (c : StopCmd)
    (hkey : plainScalar key = true) (hu : plainScalar c.InstanceUUID = true)
    (hw : plainScalar c.WorkloadAgentUUID = true) :
    decodeCmdOfLines key (splitOnChar '\n' (encodeCmdChars key c)) = .ok c := by
  have hkc : ':' ∉ key.data := plainScalar_not_colon hkey
  have h1 : '\n' ∉ topLine key := not_nl_topLine key (plainScalar_not_nl hkey)
  have h2 : '\n' ∉ nestedLine "instance_uuid" c.InstanceUUID.data :=
    not_nl_nestedLine _ _ (by decide) (plainScalar_not_nl hu)
  have h3 : '\n' ∉ nestedLine "workload_agent_uuid" c.WorkloadAgentUUID.data :=
    not_nl_nestedLine _ _ (by decide) (plainScalar_not_nl hw)
  rw [encodeCmdChars, splitOnChar_append _ _ _ h1, splitOnChar_append _ _ _ h2,
    splitOnChar_append _ _ _ h3]
  simp +decide [decodeCmdOfLines, topLine, breakAtChar_append _ _ _ hkc,
    parseBody_cons, parseBody, parseKVLine, breakAtChar, Except.map, lookupKey,
    splitOnChar, stringMkData]

/-- Round-trip of the Stop codec. -/
theorem decodeStop_roundtrip (x : Stop) (hu : plainScalar x.Stop.InstanceUUID = true)
    (hw : plainScalar x.Stop.WorkloadAgentUUID = true) :
    decodeStop (encodeStop x) = .ok x := by
  have h := decodeCmd_roundtrip "stop" x.Stop (by decide) hu hw
  simp [decodeStop, encodeStop, stringMkData, h]

/-- Round-trip of the Delete codec. -/
theorem decodeDelete_roundtrip (x : Delete)
    (hu : plainScalar x.Delete.InstanceUUID = true)
    (hw : plainScalar x.Delete.WorkloadAgentUUID = true) :
    decodeDelete (encodeDelete x) = .ok x := by
  have h := decodeCmd_roundtrip "delete" x.Delete (by decide) hu hw
  simp [decodeDelete, encodeDelete, stringMkData, h]

/-- Round-trip of the restart error payload codec. -/
theorem decodeERF_roundtrip (e : ErrorRestartFailure)
    (hu : plainScalar e.InstanceUUID = true) :
    decodeErrorRestartFailure (ErrorRestartFailure.encode e) = .ok e := by
  have h1 : '\n' ∉ flatLine "instance_uuid" e.InstanceUUID.data :=
    not_nl_flatLine _ _ (by decide) (plainScalar_not_nl hu)
  have h2 : '\n' ∉ flatLine "reason" (restartReasonToken e.Reason).data :=
    not_nl_flatLine _ _ (by decide) (plainScalar_not_nl (restartReasonToken_plain e.Reason))
  rw [decodeErrorRestartFailure]
  rw [show (ErrorRestartFailure.encode e).data = e.encodeChars from rfl]
  rw [ErrorRestartFailure.encodeChars, splitOnChar_append _ _ _ h1,
    splitOnChar_append _ _ _ h2]
  simp +decide [parseFlatBody_cons, parseFlatBody, parseKVLine, breakAtChar,
    Except.map, splitOnChar, decodeERFOfKVs, firstUnknownKey, lookupKey,
    stringMkData, parseRestartReason_token]

/-- Claim C5: for every well-formed command or error payload x,
decode (encode x) = x, and encoding is deterministic; in particular the Stop
fixture with instance_uuid 3390740c-dce9-48d6-b83a-a717417072ce and
workload_agent_uuid 59460b8a-5f53-4e3e-b5ce-b71fed8c7e64 decodes to exactly
those two fields and re-encodes byte-identical to the original fixture. -/
theorem payload_roundtrip :
    (∀ x : Stop, plainScalar x.Stop.InstanceUUID = true →
        plainScalar x.Stop.WorkloadAgentUUID = true →
        decodeStop (encodeStop x) = .ok x) ∧
    (∀ x : Delete, plainScalar x.Delete.InstanceUUID = true →
        plainScalar x.Delete.WorkloadAgentUUID = true →
        decodeDelete (encodeDelete x) = .ok x) ∧
    (∀ e : ErrorRestartFailure, plainScalar e.InstanceUUID = true →
        decodeErrorRestartFailure (ErrorRestartFailure.encode e) = .ok e) ∧
    decodeStop stopYamlFixture = .ok stopFixture ∧
    encodeStop stopFixture = stopYamlFixture := by
  refine ⟨?_, ?_, ?_, by decide, by decide⟩
  · intro x hu hw
    exact decodeStop_roundtrip x hu hw
  · intro x hu hw
    exact decodeDelete_roundtrip x hu hw
  · intro e hu
    exact decodeERF_roundtrip e hu

/-- Claim C5 witness: the round-trip evaluated at the Stop fixture. -/
theorem payload_roundtrip_witness :
    decodeStop (encodeStop stopFixture) = .ok stopFixture :=
  payload_roundtrip.1 stopFixture (by decide) (by decide)

/-- Claim C6: decoding is strict — a payload missing the required nested
field instance_uuid fails decode with an error naming that field (for any
value of the remaining field), a payload whose top-level key is not the
expected command key fails decode (for any key and any body), and extra or
unrecognized top-level keys fail decode. -/
theorem decode_strictness :
    (∀ wa : String, plainScalar wa = true →
        decodeStop (String.mk (topLine "stop" ++ '\n' ::
          (nestedLine "workload_agent_uuid" wa.data ++ '\n' :: []))) =
          .error (.missingField "instance_uuid")) ∧
    (∀ k : String, plainScalar k = true → k ≠ "stop" → ∀ r : List Char,
        decodeStop (String.mk (topLine k ++ '\n' :: r)) =
          .error (.unknownKey k)) ∧
    decodeStop "stop:\n  instance_uuid: a\n  workload_agent_uuid: b\nextra: z\n" =
      .error (.unknownKey "extra: z") ∧
    decodeErrorRestartFailure
        "instance_uuid: 2400bce6-ccc8-4a45-b2aa-b5cc3790077b\nbogus_key: x\n" =
      .error (.unknownKey "bogus_key") := by
  refine ⟨?_, ?_, by decide, by decide⟩
  · intro wa hwa
    have h2 : '\n' ∉ nestedLine "workload_agent_uuid" wa.data :=
      not_nl_nestedLine _ _ (by decide) (plainScalar_not_nl hwa)
    have hsplit : splitOnChar '\n' (String.mk (topLine "stop" ++ '\n' ::
        (nestedLine "workload_agent_uuid" wa.data ++ '\n' :: []))).data =
        [topLine "stop", nestedLine "workload_agent_uuid" wa.data, []] := by
      rw [show (String.mk (topLine "stop" ++ '\n' ::
          (nestedLine "workload_agent_uuid" wa.data ++ '\n' :: []))).data =
          topLine "stop" ++ '\n' ::
            (nestedLine "workload_agent_uuid" wa.data ++ '\n' :: []) from rfl,
        splitOnChar_append _ _ _ (by decide), splitOnChar_append _ _ _ h2]
      rfl
    have hdec : decodeCmdOfLines "stop"
        [topLine "stop", nestedLine "workload_agent_uuid" wa.data, []] =
        .error (.missingField "instance_uuid") := by
      simp +decide [decodeCmdOfLines, topLine, nestedLine, parseBody, parseKVLine,
        breakAtChar, Except.map, lookupKey]
    simp only [decodeStop, hsplit, hdec]
  · intro k hk hne r
    have hknl : '\n' ∉ topLine k := not_nl_topLine k (plainScalar_not_nl hk)
    have hkc : ':' ∉ k.data := plainScalar_not_colon hk
    have hd : ¬(k.data = ("stop").data) := fun hh => hne (congrArg String.mk hh)
    have hsplit : splitOnChar '\n' (String.mk (topLine k ++ '\n' :: r)).data =
        topLine k :: splitOnChar '\n' r := by
      rw [show (String.mk (topLine k ++ '\n' :: r)).data =
          topLine k ++ '\n' :: r from rfl,
        splitOnChar_append _ _ _ hknl]
    have hdec : decodeCmdOfLines "stop" (topLine k :: splitOnChar '\n' r) =
        .error (.unknownKey k) := by
      simp only [decodeCmdOfLines, topLine]
      rw [breakAtChar_append _ _ _ hkc]
      simp [hd, stringMkData]
    simp only [decodeStop, hsplit, hdec]

/-- Claim C6 witness: a concrete Stop payload missing instance_uuid and a
concrete payload with an unrecognized top-level key. -/
theorem decode_strictness_witness :
    decodeStop (String.mk (topLine "stop" ++ '\n' ::
      (nestedLine "workload_agent_uuid"
        ("59460b8a-5f53-4e3e-b5ce-b71fed8c7e64").data ++ '\n' :: []))) =
      .error (.missingField "instance_uuid") ∧
    decodeStop (String.mk (topLine "bogus" ++ '\n' :: [])) =
      .error (.unknownKey "bogus") :=
  ⟨decode_strictness.1 "59460b8a-5f53-4e3e-b5ce-b71fed8c7e64" (by decide),
   decode_strictness.2.1 "bogus" (by decide) (by decide) []⟩

/-- Claim C7: restart failure reasons serialize as fixed lower/underscore-case
string tokens, not integers: every token is made of lowercase letters and
underscores, distinct reasons have distinct tokens, and the fixture with
instance_uuid 2400bce6-ccc8-4a45-b2aa-b5cc3790077b and reason token
already_running decodes to AlreadyRunning, whose description string is
"Instance is already running". -/
theorem restart_reason_tokens :
    (∀ r, (restartReasonToken r).data.all (fun c => c.isLower || c = '_') = true) ∧
    (∀ r₁ r₂, restartReasonToken r₁ = restartReasonToken r₂ → r₁ = r₂) ∧
    decodeErrorRestartFailure restartFailureYamlFixture =
      .ok ⟨"2400bce6-ccc8-4a45-b2aa-b5cc3790077b", .RestartAlreadyRunning⟩ ∧
    RestartFailureReason.String .RestartAlreadyRunning =
      "Instance is already running" := by
  refine ⟨?_, ?_, by decide, by decide⟩
  · intro r
    cases r <;> decide
  · intro r₁ r₂ h
    cases r₁ <;> cases r₂ <;> first | rfl | exact absurd h (by decide)

/-- Claim C7 witness: token injectivity applied at AlreadyRunning. -/
theorem restart_reason_tokens_witness :
    RestartFailureReason.RestartAlreadyRunning =
      RestartFailureReason.RestartAlreadyRunning :=
  restart_reason_tokens.2.1 .RestartAlreadyRunning .RestartAlreadyRunning rfl

/-- Claim C8: the description function on restart failure reasons is total
over the closed seven-member taxonomy and maps every member to exactly one
fixed, non-empty, member-specific description string. -/
theorem restart_reason_descriptions :
    (RestartFailureReason.String .RestartNoInstance = "Instance does not exist" ∧
     RestartFailureReason.String .RestartInvalidPayload = "YAML payload is corrupt" ∧
     RestartFailureReason.String .RestartInvalidData =
       "Command section of YAML payload is corrupt or missing required information" ∧
     RestartFailureReason.String .RestartAlreadyRunning = "Instance is already running" ∧
     RestartFailureReason.String .RestartInstanceCorrupt = "Instance is corrupt" ∧
     RestartFailureReason.String .RestartLaunchFailure = "Failed to launch instance" ∧
     RestartFailureReason.String .RestartNetworkFailure =
       "Failed to locate VNIC for instance") ∧
    (∀ r, RestartFailureReason.String r ≠ "") ∧
    (∀ r₁ r₂, RestartFailureReason.String r₁ = RestartFailureReason.String r₂ →
        r₁ = r₂) := by
  refine ⟨by decide, ?_, ?_⟩
  · intro r
    cases r <;> decide
  · intro r₁ r₂ h
    cases r₁ <;> cases r₂ <;> first | rfl | exact absurd h (by decide)

/-- Claim C8 witness: non-emptiness and member-specificity applied at
concrete members. -/
theorem restart_reason_descriptions_witness :
    RestartFailureReason.String .RestartAlreadyRunning ≠ "" ∧
    RestartFailureReason.RestartNoInstance = RestartFailureReason.RestartNoInstance :=
  ⟨restart_reason_descriptions.2.1 .RestartAlreadyRunning,
   restart_reason_descriptions.2.2 .RestartNoInstance .RestartNoInstance rfl⟩
